import Mathlib

/-!
Shallow embedding of the monitoring engine of the stock-price-alerts
repository: the alert evaluator (src/src/services/alert-evaluator.ts), the
notification dispatcher (src/src/services/notifier.ts and the
success-tracking variant in src/unnamed/part_003), the store operations it
calls (src/src/db.ts), the price fetcher (both variants in
src/src/services/price-fetcher.ts) and the scheduler cycle
(src/src/scheduler.ts).

Numbers: prices are modelled as rationals, timestamps as integers
(milliseconds since the epoch, the value of Date.now and of
new Date(ts).getTime), cooldownMinutes as an integer.
-/

namespace StockAlerts

/-- Direction of a threshold crossing, the string union "above" | "below"
of src/src/types.ts. -/
inductive Direction where
  | above
  | below
deriving DecidableEq, Repr

/-- StockAlert record from src/src/types.ts lines 8-21. Timestamp strings
are modelled as integer epoch milliseconds. -/
structure StockAlert where
  id : String
  userId : String
  symbol : String
  name : String
  abovePrice : Option Rat
  belowPrice : Option Rat
  notes : Option String
  enabled : Bool
  lastNotifiedAt : Option Int
  lastNotifiedAboveAt : Option Int
  lastNotifiedBelowAt : Option Int
  createdAt : Int
deriving DecidableEq, Repr

/-- PriceResult record from src/src/types.ts lines 30-34. -/
structure PriceResult where
  symbol : String
  price : Rat
  name : String
deriving DecidableEq, Repr

/-- TriggeredAlert record from src/src/types.ts lines 36-41. -/
structure TriggeredAlert where
  alert : StockAlert
  currentPrice : Rat
  direction : Direction
  threshold : Rat
deriving DecidableEq, Repr

/-- Lookup in the Map built by evaluateAlerts from
new Map(prices.map((p) => [p.symbol, p])): a JavaScript Map keeps the
last entry for a duplicated key, so the fold keeps the last match. -/
def priceMapGet (prices : List PriceResult) (s : String) : Option PriceResult :=
  prices.foldl (fun acc p => if p.symbol = s then some p else acc) none

/-- isInCooldown from src/src/services/alert-evaluator.ts lines 39-45:
reads only the timestamp of the requested direction; a missing timestamp
means no cooldown; otherwise in cooldown while
now - timestamp < cooldownMinutes * 60 * 1000. -/
def isInCooldown (alert : StockAlert) (direction : Direction)
    (cooldownMinutes : Int) (now : Int) : Bool :=
  let timestamp := match direction with
    | .above => alert.lastNotifiedAboveAt
    | .below => alert.lastNotifiedBelowAt
  match timestamp with
  | none => false
  | some t => decide (now - t < cooldownMinutes * 60 * 1000)

/-- Body of the per-alert loop of evaluateAlerts
(src/src/services/alert-evaluator.ts lines 12-34): skip the alert when its
symbol has no price; otherwise test the above direction (inclusive >=,
own cooldown) and then the below direction (inclusive <=, own cooldown),
pushing the above crossing before the below crossing. -/
def alertTriggers (prices : List PriceResult) (cooldownMinutes now : Int)
    (alert : StockAlert) : List TriggeredAlert :=
  match priceMapGet prices alert.symbol with
  | none => []
  | some priceData =>
    (match alert.abovePrice with
     | some th =>
       if th ≤ priceData.price ∧ isInCooldown alert .above cooldownMinutes now = false then
         [⟨alert, priceData.price, .above, th⟩]
       else []
     | none => []) ++
    (match alert.belowPrice with
     | some th =>
       if priceData.price ≤ th ∧ isInCooldown alert .below cooldownMinutes now = false then
         [⟨alert, priceData.price, .below, th⟩]
       else []
     | none => [])

/-- evaluateAlerts from src/src/services/alert-evaluator.ts lines 3-37.
The call to Date.now() inside the source body is made explicit as the
extra argument now. -/
def evaluateAlerts (alerts : List StockAlert) (prices : List PriceResult)
    (cooldownMinutes : Int) (now : Int) : List TriggeredAlert :=
  (alerts.map (alertTriggers prices cooldownMinutes now)).flatten

/-- Projection of a crossing list onto the data that identifies each
crossing (owning alert id, direction, observed price, threshold). -/
def crossingView (out : List TriggeredAlert) : List (String × Direction × Rat × Rat) :=
  out.map (fun t => (t.alert.id, t.direction, t.currentPrice, t.threshold))

/-- Projection keeping only the crossings of one direction. -/
def directionView (d : Direction) (out : List TriggeredAlert) : List (String × Rat × Rat) :=
  out.filterMap (fun t =>
    if t.direction = d then some (t.alert.id, t.currentPrice, t.threshold) else none)

/-- getEnabledAlerts from src/src/db.ts: the Postgres variant (lines
194-199) selects WHERE enabled = true, the lowdb variant (lines 314-317)
filters alerts on the enabled flag; both are the enabled-only filter. -/
def getEnabledAlerts (store : List StockAlert) : List StockAlert :=
  store.filter (fun a => a.enabled)

/-- updateLastNotified from src/src/db.ts: the single-timestamp store
update present in both db variants (Postgres lines 230-235, lowdb lines
337-344); it sets the legacy lastNotifiedAt field of the matching alert
to the current time and touches nothing else. -/
def updateLastNotifiedLegacy (store : List StockAlert) (id : String) (now : Int) :
    List StockAlert :=
  store.map (fun a => if a.id = id then { a with lastNotifiedAt := some now } else a)

/-- Modelled from the spec: the direction-aware store update called as
updateLastNotified(alert.id, direction) by the dispatcher in
src/unnamed/part_003 line 42 is not under src/ — both db.ts variants
define only the legacy single-timestamp version. Follows the store
contract recordCooldown(alertId, direction, timestamp) and the data-model
sentence that lastNotifiedAboveAt and lastNotifiedBelowAt are optional
timestamps updated independently per direction: the matching alert has
the timestamp of the given direction set to the current time and every
other field left unchanged. -/
def updateLastNotified (store : List StockAlert) (id : String) (direction : Direction)
    (now : Int) : List StockAlert :=
  store.map (fun a =>
    if a.id = id then
      match direction with
      | .above => { a with lastNotifiedAboveAt := some now }
      | .below => { a with lastNotifiedBelowAt := some now }
    else a)

/-- Environment of one notify call: which channels are configured
(isEmailConfigured / isSmsConfigured from src/src/config.ts) and whether
each configured channel delivers a given crossing (sendEmailAlert /
sendSmsAlert resolving or throwing), plus the store clock reading used
by updateLastNotified. -/
structure DispatchEnv where
  emailEnabled : Bool
  smsEnabled : Bool
  emailDelivers : TriggeredAlert → Bool
  smsDelivers : TriggeredAlert → Bool
  now : Int

/-- Value of the anySucceeded flag of src/unnamed/part_003 after both
channel blocks for one crossing: true exactly when some configured
channel delivered. -/
def anySucceeded (env : DispatchEnv) (t : TriggeredAlert) : Bool :=
  (env.emailEnabled && env.emailDelivers t) || (env.smsEnabled && env.smsDelivers t)

/-- Store effect of one iteration of the crossing loop of notify in
src/unnamed/part_003 lines 30-43: attempt every configured channel,
record whether any succeeded, and call the direction-aware
updateLastNotified only under anySucceeded. -/
def notifyStep (env : DispatchEnv) (store : List StockAlert) (t : TriggeredAlert) :
    List StockAlert :=
  if anySucceeded env t then updateLastNotified store t.alert.id t.direction env.now
  else store

/-- notify from src/unnamed/part_003 lines 19-44 (success-tracking
variant): processes the crossings in order, threading the store. -/
def notify (env : DispatchEnv) (store : List StockAlert)
    (triggered : List TriggeredAlert) : List StockAlert :=
  triggered.foldl (notifyStep env) store

/-- Store effect of one iteration of the crossing loop of notify in
src/src/services/notifier.ts lines 11-38 (legacy variant): channel
failures are caught and logged, and updateLastNotified(alert.id) is then
called unconditionally, whatever the channel outcomes were. -/
def notifyLegacyStep (env : DispatchEnv) (store : List StockAlert)
    (t : TriggeredAlert) : List StockAlert :=
  updateLastNotifiedLegacy store t.alert.id env.now

/-- notify from src/src/services/notifier.ts lines 7-39 (legacy
variant). -/
def notifyLegacy (env : DispatchEnv) (store : List StockAlert)
    (triggered : List TriggeredAlert) : List StockAlert :=
  triggered.foldl (notifyLegacyStep env) store

/-- Error thrown by an upstream call; the is429 field records the result
of the classifier msg.includes("429") applied by fetchWithRetry
(src/src/services/price-fetcher.ts line 85) to the error message. -/
structure UpstreamError where
  msg : String
  is429 : Bool
deriving DecidableEq, Repr

/-- One quote object returned by yf.quote in the retry variant of the
fetcher (src/src/services/price-fetcher.ts lines 70-81). -/
structure Quote where
  symbol : String
  regularMarketPrice : Option Rat
  shortName : Option String
  longName : Option String
deriving DecidableEq, Repr

/-- Mapping of the quote array to PriceResult values in fetchWithRetry
lines 72-81: quotes without a regularMarketPrice are dropped, the name is
shortName, else longName, else the symbol. -/
def quotesToResults (qs : List Quote) : List PriceResult :=
  qs.filterMap (fun q =>
    q.regularMarketPrice.map (fun p =>
      ⟨q.symbol, p, q.shortName.getD (q.longName.getD q.symbol)⟩))

/-- Observable outcome of one fetchWithRetry call: the returned list or
the propagated error, the number of upstream calls made, and the list of
backoff delays (milliseconds) awaited between attempts. -/
structure FetchTrace where
  result : Except UpstreamError (List PriceResult)
  calls : Nat
  delays : List Int
deriving Repr

/-- Loop body of fetchWithRetry (src/src/services/price-fetcher.ts lines
67-95), with the upstream modelled as an oracle from the attempt index to
the outcome of that attempt. fuel counts the iterations the for loop still
allows (retries + 1 - attempt); running out of fuel is the fallthrough
return [] after the loop. A 429 error with attempt < retries waits
(attempt + 1) * 2000 ms and continues; any other error, or a 429 on the
final allowed attempt, is thrown. -/
def fetchWithRetryAux (oracle : Nat → Except UpstreamError (List Quote))
    (retries : Nat) : Nat → Nat → Nat → List Int → FetchTrace
  | 0, _, calls, delays => ⟨.ok [], calls, delays⟩
  | fuel + 1, attempt, calls, delays =>
    match oracle attempt with
    | .ok qs => ⟨.ok (quotesToResults qs), calls + 1, delays⟩
    | .error e =>
      if e.is429 ∧ attempt < retries then
        fetchWithRetryAux oracle retries fuel (attempt + 1) (calls + 1)
          (delays ++ [((attempt : Int) + 1) * 2000])
      else ⟨.error e, calls + 1, delays⟩

/-- fetchWithRetry with its default retries = 2
(src/src/services/price-fetcher.ts line 67): at most retries + 1 = 3
upstream attempts starting at attempt 0. -/
def fetchWithRetry (oracle : Nat → Except UpstreamError (List Quote)) : FetchTrace :=
  fetchWithRetryAux oracle 2 3 0 0 []

/-- Per-symbol fetch loop of the chart-API variant of fetchPrices
(src/src/services/price-fetcher.ts lines 37-46): one fetchChart call per
symbol, a null result skipped, any thrown error caught and logged, never
retried and never propagated. The pair carries the accumulated results
and the number of upstream calls made. -/
def fetchPricesSeq (chart : String → Except UpstreamError (Option PriceResult))
    (symbols : List String) : List PriceResult × Nat :=
  symbols.foldl
    (fun acc sym =>
      match chart sym with
      | .ok (some r) => (acc.1 ++ [r], acc.2 + 1)
      | .ok none => (acc.1, acc.2 + 1)
      | .error _ => (acc.1, acc.2 + 1))
    ([], 0)

/-- CACHE_TTL_MS, 30 seconds, from src/src/services/price-fetcher.ts. -/
def CACHE_TTL_MS : Int := 30000

/-- Module-level cache cell of the fetcher: last batch result, its key
and its fetch timestamp. -/
structure CacheEntry where
  data : List PriceResult
  symbols : String
  ts : Int
deriving DecidableEq, Repr

/-- Lexicographic comparison of character lists, the order underlying
the default JavaScript Array.prototype.sort comparator on strings
(elementwise code-unit comparison, shorter prefix first). -/
def charListLe : List Char → List Char → Bool
  | [], _ => true
  | _ :: _, [] => false
  | a :: as, b :: bs =>
    if a < b then true
    else if b < a then false
    else charListLe as bs

/-- Lexicographic order on strings used by the sort in the cache key. -/
def strLe (s1 s2 : String) : Prop := charListLe s1.data s2.data = true

instance : DecidableRel strLe := fun s1 s2 =>
  inferInstanceAs (Decidable (charListLe s1.data s2.data = true))

/-- Cache key of fetchPrices: the requested symbols sorted and joined
with commas ([...symbols].sort().join(",")), lines 32 and 100 of
src/src/services/price-fetcher.ts. -/
def cacheKey (symbols : List String) : String :=
  String.intercalate "," (List.insertionSort strLe symbols)

/-- fetchPrices cache logic, identical in both fetcher variants
(src/src/services/price-fetcher.ts lines 29-49 and 97-108): an empty
request returns [] at once; a cached entry whose key matches and whose
age is under the TTL is returned without an upstream call; otherwise the
upstream batch is fetched once and the cache cell replaced. The triple
carries the returned list, the cache cell after the call, and the number
of upstream batch calls made. -/
def fetchPrices (upstream : List String → List PriceResult)
    (cache : Option CacheEntry) (now : Int) (symbols : List String) :
    List PriceResult × Option CacheEntry × Nat :=
  if symbols = [] then ([], cache, 0)
  else
    let key := cacheKey symbols
    match cache with
    | some c =>
      if c.symbols = key ∧ now - c.ts < CACHE_TTL_MS then (c.data, some c, 0)
      else
        let results := upstream symbols
        (results, some ⟨results, key, now⟩, 1)
    | none =>
      let results := upstream symbols
      (results, some ⟨results, key, now⟩, 1)

/-- One observable step of a scheduler cycle (src/src/scheduler.ts lines
8-38): the log lines and the notify call, in the order the code reaches
them. -/
inductive CycleStep where
  | logNoAlerts
  | logChecking
  | logFetchError
  | logPrices
  | logNoCrossings
  | notified (triggered : List TriggeredAlert)
deriving DecidableEq, Repr

/-- checkPrices from src/src/scheduler.ts lines 8-38 as the trace of
steps of one cycle: load the enabled alerts, return at once when none;
a fetch failure is caught, logged, and the function returns without
evaluating or notifying; otherwise evaluate, and either log that nothing
crossed or hand the crossings to notify. -/
def checkPrices (store : List StockAlert)
    (fetchOutcome : Except UpstreamError (List PriceResult))
    (cooldownMinutes now : Int) : List CycleStep :=
  let alerts := getEnabledAlerts store
  if alerts = [] then [.logNoAlerts]
  else
    match fetchOutcome with
    | .error _ => [.logChecking, .logFetchError]
    | .ok prices =>
      let triggered := evaluateAlerts alerts prices cooldownMinutes now
      if triggered = [] then [.logChecking, .logPrices, .logNoCrossings]
      else [.logChecking, .logPrices, .notified triggered]

/-- Inputs of one scheduled tick: the store contents and the fetch
outcome that tick observes, with the clock reading. -/
structure TickEnv where
  store : List StockAlert
  fetchOutcome : Except UpstreamError (List PriceResult)
  cooldownMinutes : Int
  now : Int

/-- The recurring schedule of src/src/scheduler.ts lines 48-51: each
cron tick runs checkPrices on the state that tick observes; checkPrices
never throws (its fetch error path is caught inside), so every scheduled
tick produces a cycle trace. -/
def runTicks (ticks : List TickEnv) : List (List CycleStep) :=
  ticks.map (fun tk => checkPrices tk.store tk.fetchOutcome tk.cooldownMinutes tk.now)

/-- Concrete alert used by witnesses: AAPL with an above threshold of
190, enabled, never notified. -/
def sampleAlert : StockAlert :=
  ⟨"a1", "user1", "AAPL", "Apple Inc.", some 190, none, none, true, none, none, none, 0⟩

/-- Concrete price snapshot used by witnesses: AAPL trading at 200. -/
def samplePrices : List PriceResult := [⟨"AAPL", 200, "Apple Inc."⟩]

/-- Concrete price sample for AAPL at 200. -/
def samplePriceData : PriceResult := ⟨"AAPL", 200, "Apple Inc."⟩

/-- Concrete crossing of sampleAlert at price 200 over threshold 190. -/
def sampleCrossing : TriggeredAlert := ⟨sampleAlert, 200, .above, 190⟩

/-- sampleAlert with an above notification at epoch 0. -/
def cooldownAlert : StockAlert := { sampleAlert with lastNotifiedAboveAt := some 0 }

/-- sampleAlert with the enabled flag cleared. -/
def disabledAlert : StockAlert := { sampleAlert with enabled := false }

/-- sampleAlert with both thresholds set to the observed price 200. -/
def bothAlert : StockAlert :=
  { sampleAlert with abovePrice := some 200, belowPrice := some 200 }

/-- Dispatch environment in which email is the only configured channel
and its delivery always fails. -/
def envAllFail : DispatchEnv := ⟨true, false, fun _ => false, fun _ => false, 999⟩

/-- Concrete rate-limited upstream error. -/
def rateLimitError : UpstreamError := ⟨"Too Many Requests, code 429", true⟩

/-- Concrete non-rate-limit upstream error. -/
def serverError : UpstreamError := ⟨"Internal Server Error, code 500", false⟩

/-- Upstream oracle that rate-limits every attempt. -/
def oracle429 : Nat → Except UpstreamError (List Quote) := fun _ => .error rateLimitError

/-- Concrete cache entry populated by a request for AAPL and MSFT at
epoch 0. -/
def sampleCache : CacheEntry := ⟨samplePrices, "AAPL,MSFT", 0⟩

end StockAlerts

namespace StockAlerts

lemma evaluateAlerts_singleton (ps : List PriceResult) (cd now : Int) (a : StockAlert) :
    evaluateAlerts [a] ps cd now = alertTriggers ps cd now a := by
  simp [evaluateAlerts]

lemma isInCooldown_above_iff (a : StockAlert) (cd now t : Int)
    (h : a.lastNotifiedAboveAt = some t) :
    isInCooldown a .above cd now = false ↔ cd * 60 * 1000 ≤ now - t := by
  simp [isInCooldown, h, not_lt]

lemma isInCooldown_below_iff (a : StockAlert) (cd now t : Int)
    (h : a.lastNotifiedBelowAt = some t) :
    isInCooldown a .below cd now = false ↔ cd * 60 * 1000 ≤ now - t := by
  simp [isInCooldown, h, not_lt]

lemma directionView_below_alertTriggers (ps : List PriceResult) (cd now : Int)
    (a : StockAlert) :
    directionView .below (alertTriggers ps cd now a) =
      (match priceMapGet ps a.symbol, a.belowPrice with
       | some pd, some th =>
         if pd.price ≤ th ∧ isInCooldown a .below cd now = false then
           [(a.id, pd.price, th)]
         else []
       | _, _ => []) := by
  unfold alertTriggers
  cases priceMapGet ps a.symbol <;> cases a.belowPrice <;> cases a.abovePrice <;>
    simp only [directionView, List.filterMap_append, List.filterMap_nil] <;>
    (try split_ifs) <;> simp

lemma directionView_above_alertTriggers (ps : List PriceResult) (cd now : Int)
    (a : StockAlert) :
    directionView .above (alertTriggers ps cd now a) =
      (match priceMapGet ps a.symbol, a.abovePrice with
       | some pd, some th =>
         if th ≤ pd.price ∧ isInCooldown a .above cd now = false then
           [(a.id, pd.price, th)]
         else []
       | _, _ => []) := by
  unfold alertTriggers
  cases priceMapGet ps a.symbol <;> cases a.belowPrice <;> cases a.abovePrice <;>
    simp only [directionView, List.filterMap_append, List.filterMap_nil] <;>
    (try split_ifs) <;> simp

/-- C3: an active above cooldown never suppresses a below crossing of the
same alert in evaluateAlerts and an active below cooldown never
suppresses an above crossing: the cooldown test of each direction reads
only the timestamp of that direction, so replacing the above timestamp by
any value (including one inside the cooldown window) leaves the below
crossings of the alert unchanged, and symmetrically. -/
theorem claim_C3 (a : StockAlert) (ps : List PriceResult) (cd now : Int)
    (tA tB : Option Int) :
    isInCooldown { a with lastNotifiedAboveAt := tA } .below cd now =
      isInCooldown a .below cd now ∧
    isInCooldown { a with lastNotifiedBelowAt := tB } .above cd now =
      isInCooldown a .above cd now ∧
    directionView .below (evaluateAlerts [{ a with lastNotifiedAboveAt := tA }] ps cd now) =
      directionView .below (evaluateAlerts [a] ps cd now) ∧
    directionView .above (evaluateAlerts [{ a with lastNotifiedBelowAt := tB }] ps cd now) =
      directionView .above (evaluateAlerts [a] ps cd now) := by
  refine ⟨rfl, rfl, ?_, ?_⟩
  · rw [evaluateAlerts_singleton, evaluateAlerts_singleton,
      directionView_below_alertTriggers, directionView_below_alertTriggers]
    rfl
  · rw [evaluateAlerts_singleton, evaluateAlerts_singleton,
      directionView_above_alertTriggers, directionView_above_alertTriggers]
    rfl

/-- C4: an alert whose above and below thresholds are both set and equal
to the observed price of its symbol, with neither direction in cooldown,
yields exactly two crossings from evaluateAlerts, the above crossing
before the below crossing, because both comparisons are inclusive. -/
theorem claim_C4 (a : StockAlert) (ps : List PriceResult) (cd now : Int)
    (p : Rat) (pd : PriceResult)
    (hab : a.abovePrice = some p) (hbl : a.belowPrice = some p)
    (hpm : priceMapGet ps a.symbol = some pd) (hp : pd.price = p)
    (hca : isInCooldown a .above cd now = false)
    (hcb : isInCooldown a .below cd now = false) :
    evaluateAlerts [a] ps cd now =
      [⟨a, p, .above, p⟩, ⟨a, p, .below, p⟩] := by
  rw [evaluateAlerts_singleton]
  unfold alertTriggers
  rw [hpm, hab, hbl]
  simp [hca, hcb, hp]

/-- Witness for claim_C4: the alert bothAlert has both thresholds equal
to the observed AAPL price 200 and no cooldown in effect, and
evaluateAlerts emits its above crossing followed by its below
crossing. -/
theorem claim_C4_witness :
    evaluateAlerts [bothAlert] samplePrices 60 3600000 =
      [⟨bothAlert, 200, .above, 200⟩, ⟨bothAlert, 200, .below, 200⟩] :=
  claim_C4 bothAlert samplePrices 60 3600000 200 samplePriceData
    (by decide) (by decide) (by decide) (by decide) (by decide) (by decide)

/-- C5: for a direction carrying a last-notified timestamp, isInCooldown
reports the direction eligible (false) exactly when the elapsed time
now - t is at least cooldownMinutes * 60 * 1000; and for an alert whose
above threshold is crossed, evaluateAlerts emits a crossing exactly
under the same condition. -/
theorem claim_C5 (a : StockAlert) (cd now t : Int) :
    (a.lastNotifiedAboveAt = some t →
      (isInCooldown a .above cd now = false ↔ cd * 60 * 1000 ≤ now - t)) ∧
    (a.lastNotifiedBelowAt = some t →
      (isInCooldown a .below cd now = false ↔ cd * 60 * 1000 ≤ now - t)) ∧
    (∀ (ps : List PriceResult) (pd : PriceResult) (p : Rat),
      a.lastNotifiedAboveAt = some t → a.abovePrice = some p → a.belowPrice = none →
      priceMapGet ps a.symbol = some pd → p ≤ pd.price →
      (evaluateAlerts [a] ps cd now ≠ [] ↔ cd * 60 * 1000 ≤ now - t)) := by
  refine ⟨isInCooldown_above_iff a cd now t, isInCooldown_below_iff a cd now t, ?_⟩
  intro ps pd p hts hab hbl hpm hle
  rw [evaluateAlerts_singleton]
  unfold alertTriggers
  rw [hpm, hab, hbl]
  rw [← isInCooldown_above_iff a cd now t hts]
  by_cases hic : isInCooldown a .above cd now = false
  · simp [hic, hle]
  · have hic2 : isInCooldown a .above cd now = true := by
      cases h : isInCooldown a .above cd now
      · exact absurd h hic
      · rfl
    simp [hic2, hle]

/-- Witness for claim_C5: cooldownAlert was notified above at epoch 0;
with a 60 minute cooldown it is eligible again at now = 3600000 and
evaluateAlerts emits the crossing there. -/
theorem claim_C5_witness :
    (isInCooldown cooldownAlert .above 60 3600000 = false ↔
      (60 : Int) * 60 * 1000 ≤ 3600000 - 0) ∧
    (evaluateAlerts [cooldownAlert] samplePrices 60 3600000 ≠ [] ↔
      (60 : Int) * 60 * 1000 ≤ 3600000 - 0) :=
  ⟨(claim_C5 cooldownAlert 60 3600000 0).1 (by decide),
   (claim_C5 cooldownAlert 60 3600000 0).2.2 samplePrices samplePriceData 190
     (by decide) (by decide) (by decide) (by decide) (by decide)⟩

lemma alertTriggers_alert_mem (ps : List PriceResult) (cd now : Int) (a : StockAlert)
    (tr : TriggeredAlert) (h : tr ∈ alertTriggers ps cd now a) : tr.alert = a := by
  unfold alertTriggers at h
  rcases hpm : priceMapGet ps a.symbol with _ | pd <;> rw [hpm] at h
  · simp at h
  · rcases hab : a.abovePrice with _ | th <;> rw [hab] at h <;>
      rcases hbl : a.belowPrice with _ | th2 <;> rw [hbl] at h <;>
      simp only [List.mem_append] at h <;>
      rcases h with h1 | h1 <;> (try split_ifs at h1) <;> simp_all

lemma crossingView_alertTriggers (ps : List PriceResult) (cd now : Int)
    (a : StockAlert) :
    crossingView (alertTriggers ps cd now a) =
      (match priceMapGet ps a.symbol with
       | none => []
       | some pd =>
         (match a.abovePrice with
          | some th =>
            if th ≤ pd.price ∧ isInCooldown a .above cd now = false then
              [(a.id, Direction.above, pd.price, th)]
            else []
          | none => []) ++
         (match a.belowPrice with
          | some th =>
            if pd.price ≤ th ∧ isInCooldown a .below cd now = false then
              [(a.id, Direction.below, pd.price, th)]
            else []
          | none => [])) := by
  unfold alertTriggers crossingView
  cases priceMapGet ps a.symbol <;> cases a.abovePrice <;> cases a.belowPrice <;>
    simp only [List.map_append, List.map_nil] <;> (try split_ifs) <;> simp

/-- C9 counterexample: evaluateAlerts is not a function of its three
declared arguments alone, because its body reads Date.now(): the same
alerts, priceSamples and cooldownMinutes give different crossing lists
at two different clock readings (inside versus past the cooldown
window), so two calls with identical arguments need not return identical
lists. -/
theorem claim_C9_counterexample :
    evaluateAlerts [cooldownAlert] samplePrices 60 1000 ≠
      evaluateAlerts [cooldownAlert] samplePrices 60 3600000 := by decide

/-- C9 as amended: evaluateAlerts is pure relative to its arguments and
the single Date.now() reading it samples: every emitted crossing embeds
one of the input alert records unchanged (no mutation of inputs), and
two calls with identical alerts, priceSamples, cooldownMinutes and
identical clock reading return identical crossing lists. -/
theorem claim_C9 (alerts : List StockAlert) (ps : List PriceResult) (cd now : Int) :
    (∀ tr ∈ evaluateAlerts alerts ps cd now, tr.alert ∈ alerts) ∧
    (∀ (alerts2 : List StockAlert) (ps2 : List PriceResult) (cd2 now2 : Int),
      alerts = alerts2 → ps = ps2 → cd = cd2 → now = now2 →
      evaluateAlerts alerts ps cd now = evaluateAlerts alerts2 ps2 cd2 now2) := by
  constructor
  · intro tr htr
    simp only [evaluateAlerts, List.mem_flatten, List.mem_map] at htr
    obtain ⟨l, ⟨a, ha, rfl⟩, htr2⟩ := htr
    rw [alertTriggers_alert_mem ps cd now a tr htr2]
    exact ha
  · intro alerts2 ps2 cd2 now2 h1 h2 h3 h4
    rw [h1, h2, h3, h4]

/-- Witness for claim_C9: at the concrete sample inputs the emitted
crossing embeds the input alert, and a repeated call at the same clock
reading returns the same list. -/
theorem claim_C9_witness :
    sampleCrossing.alert ∈ [sampleAlert] ∧
    evaluateAlerts [sampleAlert] samplePrices 60 0 =
      evaluateAlerts [sampleAlert] samplePrices 60 0 :=
  ⟨(claim_C9 [sampleAlert] samplePrices 60 0).1 sampleCrossing (by decide),
   (claim_C9 [sampleAlert] samplePrices 60 0).2 [sampleAlert] samplePrices 60 0
     rfl rfl rfl rfl⟩

/-- C10: evaluateAlerts never consults the enabled flag — flipping it
changes no emitted crossing, and a disabled alert whose threshold is
crossed outside cooldown still yields a crossing — while the exclusion
of disabled alerts happens in the pipeline because the scheduler feeds
the evaluator from getEnabledAlerts, whose output holds only enabled
alerts. -/
theorem claim_C10 (store : List StockAlert) (b : Bool) (a : StockAlert)
    (ps : List PriceResult) (cd now : Int) :
    (∀ x ∈ getEnabledAlerts store, x.enabled = true) ∧
    crossingView (evaluateAlerts [{ a with enabled := b }] ps cd now) =
      crossingView (evaluateAlerts [a] ps cd now) ∧
    disabledAlert.enabled = false ∧
    evaluateAlerts [disabledAlert] samplePrices 60 3600000 =
      [⟨disabledAlert, 200, .above, 190⟩] := by
  refine ⟨?_, ?_, by decide, by decide⟩
  · intro x hx
    exact (List.mem_filter.mp hx).2
  · rw [evaluateAlerts_singleton, evaluateAlerts_singleton,
      crossingView_alertTriggers, crossingView_alertTriggers]
    rfl

/-- Witness for claim_C10: applied to a concrete store containing an
enabled and a disabled alert. -/
theorem claim_C10_witness :
    sampleAlert.enabled = true ∧
    evaluateAlerts [disabledAlert] samplePrices 60 3600000 =
      [⟨disabledAlert, 200, .above, 190⟩] :=
  ⟨(claim_C10 [sampleAlert, disabledAlert] false sampleAlert samplePrices 60 0).1
      sampleAlert (by decide),
   (claim_C10 [sampleAlert, disabledAlert] false sampleAlert samplePrices 60 0).2.2.2⟩

/-- C1 counterexample: the repository also contains a legacy dispatcher
(src/src/services/notifier.ts lines 7-39) whose crossing loop calls
updateLastNotified(alert.id) unconditionally. At a call in which email is
the only configured channel and its delivery fails, every configured
channel has failed for the crossing, yet a cooldown timestamp write still
occurs: the stored alert gets lastNotifiedAt set, so the store does not
stay unchanged. This falsifies the claim for that variant of notify. -/
theorem claim_C1_counterexample :
    anySucceeded envAllFail sampleCrossing = false ∧
    notifyLegacy envAllFail [sampleAlert] [sampleCrossing] =
      [{ sampleAlert with lastNotifiedAt := some 999 }] ∧
    notifyLegacy envAllFail [sampleAlert] [sampleCrossing] ≠ [sampleAlert] := by
  refine ⟨by decide, by decide, by decide⟩

/-- C1 as amended: in the success-tracking dispatcher variant
(src/unnamed/part_003) the cooldown timestamp of a crossing is written
exactly when some configured channel delivered it: a crossing for which
every configured channel failed leaves the store untouched, a crossing
with at least one success is recorded through the direction-aware
updateLastNotified, and a whole notify call in which every crossing
failed on every configured channel leaves the store unchanged, so those
alerts stay eligible to re-trigger. -/
theorem claim_C1 (env : DispatchEnv) (store : List StockAlert) (t : TriggeredAlert)
    (ts : List TriggeredAlert) :
    (anySucceeded env t = false → notifyStep env store t = store) ∧
    (anySucceeded env t = true →
      notifyStep env store t = updateLastNotified store t.alert.id t.direction env.now) ∧
    ((∀ x ∈ ts, anySucceeded env x = false) → notify env store ts = store) := by
  refine ⟨fun h => by simp [notifyStep, h], fun h => by simp [notifyStep, h], ?_⟩
  induction ts generalizing store with
  | nil => intro _; rfl
  | cons x xs ih =>
    intro h
    have hx : anySucceeded env x = false := h x (List.mem_cons_self x xs)
    have hst : notifyStep env store x = store := by simp [notifyStep, hx]
    show List.foldl (notifyStep env) store (x :: xs) = store
    rw [List.foldl_cons, hst]
    exact ih store (fun y hy => h y (List.mem_cons_of_mem x hy))

/-- Witness for claim_C1: with email configured but failing and SMS not
configured, notifying the sample crossing leaves the store unchanged. -/
theorem claim_C1_witness :
    notify envAllFail [sampleAlert] [sampleCrossing] = [sampleAlert] :=
  (claim_C1 envAllFail [sampleAlert] sampleCrossing [sampleCrossing]).2.2
    (by intro x hx; simp only [List.mem_singleton] at hx; subst hx; decide)

/-- C2: the direction-aware store update touches exactly one field of
exactly the matching alert: after updating direction above, erasing the
lastNotifiedAboveAt field of every record gives back the original store
with that field erased (so the below timestamp, the legacy timestamp and
every other field of every record are unchanged, and order and length
are preserved), while the lastNotifiedAboveAt fields themselves equal
the original except on the matching id, where the new timestamp stands;
symmetrically for direction below. -/
theorem claim_C2 (store : List StockAlert) (id : String) (now : Int) :
    ((updateLastNotified store id .above now).map
        (fun a => { a with lastNotifiedAboveAt := none }) =
      store.map (fun a => { a with lastNotifiedAboveAt := none })) ∧
    ((updateLastNotified store id .above now).map
        (fun a => (a.id, a.lastNotifiedAboveAt)) =
      store.map (fun a => (a.id, if a.id = id then some now else a.lastNotifiedAboveAt))) ∧
    ((updateLastNotified store id .below now).map
        (fun a => { a with lastNotifiedBelowAt := none }) =
      store.map (fun a => { a with lastNotifiedBelowAt := none })) ∧
    ((updateLastNotified store id .below now).map
        (fun a => (a.id, a.lastNotifiedBelowAt)) =
      store.map (fun a => (a.id, if a.id = id then some now else a.lastNotifiedBelowAt))) := by
  refine ⟨?_, ?_, ?_, ?_⟩ <;>
    · unfold updateLastNotified
      rw [List.map_map]
      apply List.map_congr_left
      intro a _
      by_cases h : a.id = id <;> simp [h]

lemma charListLe_total : ∀ x y : List Char, charListLe x y = true ∨ charListLe y x = true
  | [], _ => Or.inl rfl
  | _ :: _, [] => Or.inr rfl
  | a :: as, b :: bs => by
    rcases lt_trichotomy a b with h | h | h
    · left; simp [charListLe, h]
    · subst h
      rcases charListLe_total as bs with ih | ih
      · left; simp [charListLe, lt_irrefl, ih]
      · right; simp [charListLe, lt_irrefl, ih]
    · right; simp [charListLe, h]

lemma charListLe_trans : ∀ x y z : List Char,
    charListLe x y = true → charListLe y z = true → charListLe x z = true
  | [], _, _, _, _ => rfl
  | _ :: _, [], _, h1, _ => by simp [charListLe] at h1
  | _ :: _, _ :: _, [], _, h2 => by simp [charListLe] at h2
  | a :: as, b :: bs, c :: cs, h1, h2 => by
    simp only [charListLe] at h1 h2 ⊢
    rcases lt_trichotomy a b with hab | hab | hab
    · rcases lt_trichotomy b c with hbc | hbc | hbc
      · simp [lt_trans hab hbc]
      · subst hbc; simp [hab]
      · rw [if_neg (asymm hbc), if_pos hbc] at h2; simp at h2
    · subst hab
      rw [if_neg (lt_irrefl a), if_neg (lt_irrefl a)] at h1
      rcases lt_trichotomy a c with hac | hac | hac
      · simp [hac]
      · subst hac
        rw [if_neg (lt_irrefl a), if_neg (lt_irrefl a)] at h2 ⊢
        exact charListLe_trans as bs cs h1 h2
      · rw [if_neg (asymm hac), if_pos hac] at h2; simp at h2
    · rw [if_neg (asymm hab), if_pos hab] at h1; simp at h1

lemma charListLe_antisymm : ∀ x y : List Char,
    charListLe x y = true → charListLe y x = true → x = y
  | [], [], _, _ => rfl
  | [], _ :: _, _, h2 => by simp [charListLe] at h2
  | _ :: _, [], h1, _ => by simp [charListLe] at h1
  | a :: as, b :: bs, h1, h2 => by
    simp only [charListLe] at h1 h2
    rcases lt_trichotomy a b with hab | hab | hab
    · rw [if_neg (asymm hab), if_pos hab] at h2; simp at h2
    · subst hab
      rw [if_neg (lt_irrefl a), if_neg (lt_irrefl a)] at h1 h2
      rw [charListLe_antisymm as bs h1 h2]
    · rw [if_neg (asymm hab), if_pos hab] at h1; simp at h1

lemma strLe_total (s1 s2 : String) : strLe s1 s2 ∨ strLe s2 s1 :=
  charListLe_total s1.data s2.data

lemma strLe_trans (s1 s2 s3 : String) (h1 : strLe s1 s2) (h2 : strLe s2 s3) :
    strLe s1 s3 :=
  charListLe_trans s1.data s2.data s3.data h1 h2

lemma strLe_antisymm (s1 s2 : String) (h1 : strLe s1 s2) (h2 : strLe s2 s1) :
    s1 = s2 := by
  have h := charListLe_antisymm s1.data s2.data h1 h2
  cases s1
  cases s2
  exact congrArg String.mk h

lemma insertionSort_strLe_perm_eq {l1 l2 : List String} (h : l1.Perm l2) :
    List.insertionSort strLe l1 = List.insertionSort strLe l2 :=
  @List.eq_of_perm_of_sorted String strLe ⟨strLe_antisymm⟩ _ _
    (((List.perm_insertionSort strLe l1).trans h).trans
      (List.perm_insertionSort strLe l2).symm)
    (@List.sorted_insertionSort String strLe _ ⟨strLe_total⟩ ⟨strLe_trans⟩ l1)
    (@List.sorted_insertionSort String strLe _ ⟨strLe_total⟩ ⟨strLe_trans⟩ l2)

/-- C6 counterexample: the chart-API variant of fetchPrices in the same
source file (src/src/services/price-fetcher.ts lines 29-50) has no retry
logic at all: when the single upstream call for a symbol fails with a
rate-limit error it makes no further attempt for that symbol (exactly
one upstream call) and the error is caught inside the loop rather than
propagated, the call returning an empty result list — and a non-rate-limit
error is likewise swallowed instead of propagating. This falsifies the
claimed retry and propagation behavior for that variant. -/
theorem claim_C6_counterexample :
    fetchPricesSeq (fun _ => .error rateLimitError) ["AAPL"] = ([], 1) ∧
    fetchPricesSeq (fun _ => .error serverError) ["AAPL"] = ([], 1) :=
  ⟨by decide, by decide⟩

/-- C6 as amended: the retry policy holds for the yahoo-finance2 variant
of the fetcher, whose fetchWithRetry (delegated to by the fetchPrices at
lines 97-108) makes the single successful call when the first attempt
succeeds; propagates a non-rate-limit error of the first attempt
immediately with no retry; and on rate-limit errors retries up to 2
additional times, waiting (attempt + 1) * 2000 ms before retry number
attempt + 1, the error of the final attempt propagating once the
retries are exhausted. -/
theorem claim_C6 (oracle : Nat → Except UpstreamError (List Quote)) :
    (∀ qs, oracle 0 = .ok qs →
      fetchWithRetry oracle = ⟨.ok (quotesToResults qs), 1, []⟩) ∧
    (∀ e, oracle 0 = .error e → e.is429 = false →
      fetchWithRetry oracle = ⟨.error e, 1, []⟩) ∧
    (∀ e0 e1, oracle 0 = .error e0 → e0.is429 = true →
      oracle 1 = .error e1 → e1.is429 = false →
      fetchWithRetry oracle = ⟨.error e1, 2, [2000]⟩) ∧
    (∀ e0 e1 e2, oracle 0 = .error e0 → e0.is429 = true →
      oracle 1 = .error e1 → e1.is429 = true → oracle 2 = .error e2 →
      fetchWithRetry oracle = ⟨.error e2, 3, [2000, 4000]⟩) := by
  refine ⟨?_, ?_, ?_, ?_⟩
  · intro qs h0
    simp [fetchWithRetry, fetchWithRetryAux, h0]
  · intro e h0 h429
    simp [fetchWithRetry, fetchWithRetryAux, h0, h429]
  · intro e0 e1 h0 h4a h1 h4b
    simp [fetchWithRetry, fetchWithRetryAux, h0, h1, h4a, h4b]
  · intro e0 e1 e2 h0 h4a h1 h4b h2
    simp [fetchWithRetry, fetchWithRetryAux, h0, h1, h2, h4a, h4b]

/-- Witness for claim_C6: an upstream that rate-limits every attempt
makes three calls, waits 2 s then 4 s, and fails with the final
rate-limit error. -/
theorem claim_C6_witness :
    fetchWithRetry oracle429 = ⟨.error rateLimitError, 3, [2000, 4000]⟩ :=
  (claim_C6 oracle429).2.2.2 rateLimitError rateLimitError rateLimitError
    rfl rfl rfl rfl rfl

/-- C7: a non-empty request whose sorted comma-joined key equals the
cached key, made while the cache entry is younger than the 30 s TTL,
returns the cached list unchanged with zero upstream calls; the key is
invariant under reordering of the requested symbols, so a permuted
request still hits; and a request whose key differs or whose cache age
reached the TTL performs exactly one fresh upstream fetch and stores
it. -/
theorem claim_C7 (upstream : List String → List PriceResult) (c : CacheEntry)
    (now : Int) (symbols symbols1 : List String) :
    (symbols ≠ [] → cacheKey symbols = c.symbols → now - c.ts < CACHE_TTL_MS →
      fetchPrices upstream (some c) now symbols = (c.data, some c, 0)) ∧
    (symbols.Perm symbols1 → cacheKey symbols = cacheKey symbols1) ∧
    (symbols ≠ [] → (cacheKey symbols ≠ c.symbols ∨ CACHE_TTL_MS ≤ now - c.ts) →
      fetchPrices upstream (some c) now symbols =
        (upstream symbols, some ⟨upstream symbols, cacheKey symbols, now⟩, 1)) := by
  refine ⟨?_, ?_, ?_⟩
  · intro hne hkey hage
    unfold fetchPrices
    rw [if_neg hne]
    exact if_pos ⟨hkey.symm, hage⟩
  · intro hperm
    unfold cacheKey
    rw [insertionSort_strLe_perm_eq hperm]
  · intro hne hmiss
    have hcond : ¬(c.symbols = cacheKey symbols ∧ now - c.ts < CACHE_TTL_MS) := by
      rintro ⟨hc1, hc2⟩
      rcases hmiss with h | h
      · exact h hc1.symm
      · exact absurd hc2 (not_lt.mpr h)
    unfold fetchPrices
    rw [if_neg hne]
    exact if_neg hcond

/-- Witness for claim_C7: a permuted request within the TTL returns the
cached list with no upstream call, the permuted key matches, and the
same request after expiry fetches upstream once. -/
theorem claim_C7_witness :
    fetchPrices (fun _ => []) (some sampleCache) 10000 ["MSFT", "AAPL"] =
      (samplePrices, some sampleCache, 0) ∧
    cacheKey ["MSFT", "AAPL"] = cacheKey ["AAPL", "MSFT"] ∧
    fetchPrices (fun _ => []) (some sampleCache) 40000 ["MSFT", "AAPL"] =
      ([], some ⟨[], "AAPL,MSFT", 40000⟩, 1) :=
  ⟨(claim_C7 (fun _ => []) sampleCache 10000 ["MSFT", "AAPL"] ["AAPL", "MSFT"]).1
      (by decide) (by decide) (by decide),
   (claim_C7 (fun _ => []) sampleCache 10000 ["MSFT", "AAPL"] ["AAPL", "MSFT"]).2.1
      (by decide),
   ((claim_C7 (fun _ => []) sampleCache 40000 ["MSFT", "AAPL"] ["AAPL", "MSFT"]).2.2
      (by decide) (by decide)).trans (by decide)⟩

/-- C8: when the fetch of a cycle fails, checkPrices logs the error and
returns: its trace is exactly the checking log followed by the error
log, containing no notify step; and the scheduler is unaffected — the
tick after a failing tick produces exactly the cycle its own inputs
dictate. -/
theorem claim_C8 (store : List StockAlert) (e : UpstreamError) (cd now : Int)
    (tk : TickEnv) (rest : List TickEnv) :
    (getEnabledAlerts store ≠ [] →
      checkPrices store (.error e) cd now = [.logChecking, .logFetchError] ∧
      ∀ ts, CycleStep.notified ts ∉ checkPrices store (.error e) cd now) ∧
    runTicks (⟨store, .error e, cd, now⟩ :: tk :: rest) =
      checkPrices store (.error e) cd now ::
        checkPrices tk.store tk.fetchOutcome tk.cooldownMinutes tk.now :: runTicks rest := by
  constructor
  · intro hne
    have h : checkPrices store (.error e) cd now = [.logChecking, .logFetchError] := by
      unfold checkPrices
      rw [if_neg hne]
    refine ⟨h, ?_⟩
    intro ts
    rw [h]
    simp
  · rfl

/-- Witness for claim_C8: a failing fetch over a store with one enabled
alert yields the two-log trace with no notify step. -/
theorem claim_C8_witness :
    checkPrices [sampleAlert] (.error serverError) 60 0 =
      [.logChecking, .logFetchError] ∧
    CycleStep.notified [sampleCrossing] ∉
      checkPrices [sampleAlert] (.error serverError) 60 0 :=
  ⟨((claim_C8 [sampleAlert] serverError 60 0 ⟨[], .ok [], 0, 0⟩ []).1 (by decide)).1,
   ((claim_C8 [sampleAlert] serverError 60 0 ⟨[], .ok [], 0, 0⟩ []).1 (by decide)).2
     [sampleCrossing]⟩

end StockAlerts
